import Mathlib

/-!
Shallow embedding of `src/blog/blog.js`, the browser client of a minimal
blogging service, together with proofs of the spec claims about it.

JavaScript strings are modelled as Lean `String` (lists of characters),
JS `null`/`undefined` token values as `Option String`, and the outcome of
each `fetch` as an explicit `HttpResponse` record handed to the workflow.
The DOM elements that hold client state (message areas, disabled flags)
are modelled as fields of `ClientState`; purely visual DOM effects
(class toggling, hidden attributes, event listener wiring) are outside
the model.
-/

namespace Blog

/-- A post record as served by the API: `{ id, title, body, createdAt }`
(all opaque strings on the client). -/
structure Post where
  id : String
  title : String
  body : String
  createdAt : String
  deriving DecidableEq, Repr

/-- JS `String.prototype.replace(/c/g, r)` for a single-character pattern
`c`: every occurrence of `c` is replaced by `r`. -/
def replaceChar (c : Char) (r : List Char) : List Char → List Char
  | [] => []
  | x :: xs => (if x = c then r else [x]) ++ replaceChar c r xs

/-- String-level wrapper for `replaceChar`. -/
def replaceAllChar (c : Char) (r : String) (s : String) : String :=
  ⟨replaceChar c r.data s.data⟩

/-- `escapeHtml` from `blog.js` lines 299-306: the chain
`value.replace(/&/g,"&amp;").replace(/</g,"&lt;").replace(/>/g,"&gt;")
.replace(/"/g,"&quot;").replace(/'/g,"&#039;")`. -/
def escapeHtml (value : String) : String :=
  replaceAllChar '\'' "&#039;"
    (replaceAllChar '"' "&quot;"
      (replaceAllChar '>' "&gt;"
        (replaceAllChar '<' "&lt;"
          (replaceAllChar '&' "&amp;" value))))

/-- The list-of-characters core of `escapeHtml`. -/
def escapeHtmlList (cs : List Char) : List Char :=
  replaceChar '\'' "&#039;".data
    (replaceChar '"' "&quot;".data
      (replaceChar '>' "&gt;".data
        (replaceChar '<' "&lt;".data
          (replaceChar '&' "&amp;".data cs))))

/-- What `escapeHtml` turns one character into. -/
def escChar (c : Char) : List Char :=
  if c = '&' then "&amp;".data
  else if c = '<' then "&lt;".data
  else if c = '>' then "&gt;".data
  else if c = '"' then "&quot;".data
  else if c = '\'' then "&#039;".data
  else [c]

/-- Modelled from the spec: "no literal occurrence of those characters
outside their entity form".  Scans a character list and accepts it iff
every occurrence of `&ampersand, < > " '` is part of one of the five
entity forms `&amp; &lt; &gt; &quot; &#039;` (the ampersand that starts
such an entity being the only permitted occurrence of any of the five). -/
def noStray : List Char → Bool
  | [] => true
  | c :: rest =>
    if c = '&' then
      if rest.take 4 = ['a', 'm', 'p', ';'] then noStray (rest.drop 4)
      else if rest.take 3 = ['l', 't', ';'] then noStray (rest.drop 3)
      else if rest.take 3 = ['g', 't', ';'] then noStray (rest.drop 3)
      else if rest.take 5 = ['q', 'u', 'o', 't', ';'] then noStray (rest.drop 5)
      else if rest.take 5 = ['#', '0', '3', '9', ';'] then noStray (rest.drop 5)
      else false
    else decide (c ≠ '<' ∧ c ≠ '>' ∧ c ≠ '"' ∧ c ≠ '\'') && noStray rest
  termination_by cs => cs.length
  decreasing_by all_goals (simp [List.length_drop] <;> omega)

/-- Modelled from the spec: "applying the inverse entity decoding".
Decodes the five entity forms produced by `escapeHtml` back to their
characters, left to right; everything else is copied unchanged. -/
def decodeEntities : List Char → List Char
  | [] => []
  | c :: rest =>
    if c = '&' then
      if rest.take 4 = ['a', 'm', 'p', ';'] then '&' :: decodeEntities (rest.drop 4)
      else if rest.take 3 = ['l', 't', ';'] then '<' :: decodeEntities (rest.drop 3)
      else if rest.take 3 = ['g', 't', ';'] then '>' :: decodeEntities (rest.drop 3)
      else if rest.take 5 = ['q', 'u', 'o', 't', ';'] then '"' :: decodeEntities (rest.drop 5)
      else if rest.take 5 = ['#', '0', '3', '9', ';'] then '\'' :: decodeEntities (rest.drop 5)
      else c :: decodeEntities rest
    else c :: decodeEntities rest
  termination_by cs => cs.length
  decreasing_by all_goals (simp [List.length_drop] <;> omega)

/-- The two error kinds of the API client: `UnauthorizedError` (thrown on
HTTP 401) and a plain `Error` carrying a message (any other non-success
status). -/
inductive FetchErr where
  | unauthorized
  | requestFailed (message : String)
  deriving DecidableEq, Repr

/-- An HTTP response as observed by `fetchJSON`: status code, status line
text, body text, and the parsed JSON body (of endpoint-specific type `α`).
The request side (method, headers, body) has no bearing on any claim and
is not modelled. -/
structure HttpResponse (α : Type) where
  status : Nat
  statusText : String
  bodyText : String
  json : α
  deriving DecidableEq, Repr

/-- `fetchJSON` from `blog.js` lines 51-76, from the response onward:
status 401 throws `UnauthorizedError`; any other non-ok status
(`response.ok` means 200-299) throws
`Error(text || statusText || "Request failed.")`; status 204 returns
`null` (here `none`); otherwise the parsed JSON body is returned. -/
def fetchJSON {α : Type} (response : HttpResponse α) : Except FetchErr (Option α) :=
  if response.status = 401 then
    .error .unauthorized
  else if ¬(200 ≤ response.status ∧ response.status ≤ 299) then
    .error (.requestFailed
      (if response.bodyText ≠ "" then response.bodyText
       else if response.statusText ≠ "" then response.statusText
       else "Request failed."))
  else if response.status = 204 then
    .ok none
  else
    .ok (some response.json)

/-- The client's mutable state: the persisted token store (`localStorage`
under the fixed key), the in-memory `state` object of lines 19-23
(`token`, `posts`, `authed`), and the DOM nodes the workflows write to:
the login error line, the editor message line, and the disabled flags of
the publish and clear-all controls.  JS `null`/`undefined` token values
are `none`. -/
structure ClientState where
  store : Option String
  token : Option String
  posts : List Post
  authed : Bool
  loginError : String
  editorMessage : String
  publishDisabled : Bool
  clearDisabled : Bool
  deriving DecidableEq, Repr

/-- JS truthiness of a token value: `null`/`undefined` and `""` are falsy. -/
def truthy : Option String → Bool
  | none => false
  | some t => t ≠ ""

/-- JS `String.prototype.trim()`: strips leading and trailing
whitespace. -/
def jsTrim (s : String) : String :=
  ⟨((s.data.dropWhile Char.isWhitespace).reverse.dropWhile
      Char.isWhitespace).reverse⟩

/-- `saveToken` (lines 31-38): a truthy token is persisted under the
storage key, a falsy one removes the persisted entry; in both cases
`state.token` becomes the given value. -/
def saveToken (s : ClientState) (token : Option String) : ClientState :=
  { s with store := if truthy token then token else none, token := token }

/-- `setAuthState` (lines 78-111) restricted to the modelled fields: sets
`state.authed`; when authed, clears the login error; when not authed,
resets the login form and clears the editor message; in both branches the
publish and clear controls are re-enabled.  (The class and hidden-attribute
toggling and the `renderPosts()` call only write to the DOM.) -/
def setAuthState (s : ClientState) (isAuthed : Bool) : ClientState :=
  if isAuthed then
    { s with authed := true, loginError := "",
             publishDisabled := false, clearDisabled := false }
  else
    { s with authed := false, editorMessage := "",
             publishDisabled := false, clearDisabled := false }

/-- The parsed JSON body of a `GET /posts` response, as seen through the
single property access `result.posts` (line 166): the field is an array
(of post records — the only arrays this endpoint serves), or present with
a non-array value, or absent. -/
inductive LoadResult where
  | postsArr (posts : List Post)
  | postsNonArray
  | noPosts
  deriving DecidableEq, Repr

/-- The parsed JSON body of a `POST /login` response, as seen through the
single property access `result.token` (line 130): `none` models an absent,
`null` or `undefined` field, `some t` a string token. -/
structure LoginResult where
  token : Option String
  deriving DecidableEq, Repr

/-- `loadPosts` (lines 160-178).  On success sets `state.posts` to
`result.posts` when that is an array and to `[]` otherwise; on
`UnauthorizedError` clears the token, drops to the unauthenticated state
and surfaces the session-expired message; on any other failure shows the
load-failure message and leaves the list unchanged.  A 204 response makes
`result` null, so `result.posts` throws a `TypeError` that the same
generic catch branch handles. -/
def loadPosts (s : ClientState) (resp : HttpResponse LoadResult) : ClientState :=
  match fetchJSON resp with
  | .ok (some result) =>
    { s with posts := match result with
                      | .postsArr posts => posts
                      | _ => [] }
  | .ok none =>
    { s with editorMessage := "Unable to load posts at the moment." }
  | .error .unauthorized =>
    let s := setAuthState (saveToken s none) false
    { s with loginError := "Session expired. Please sign in again." }
  | .error (.requestFailed _) =>
    { s with editorMessage := "Unable to load posts at the moment." }

/-- `handleLogin` (lines 113-142): validates that the trimmed username and
the password are non-empty; on success stores the returned token, flips to
authenticated, reloads the list and shows the welcome message; a 401 means
incorrect credentials; everything else (including the `TypeError` from
`result.token` on a null 204 body) shows the generic retry message. -/
def handleLogin (s : ClientState) (username0 password : String)
    (resp : HttpResponse LoginResult) (loadResp : HttpResponse LoadResult) :
    ClientState :=
  let s := { s with loginError := "" }
  let username := jsTrim username0
  if username = "" ∨ password = "" then
    { s with loginError := "Enter both username and password." }
  else
    match fetchJSON resp with
    | .ok (some result) =>
      let s := setAuthState (saveToken s result.token) true
      let s := loadPosts s loadResp
      { s with editorMessage := "Welcome back! You're signed in." }
    | .ok none =>
      { s with loginError := "Unable to sign in. Please try again." }
    | .error .unauthorized =>
      { s with loginError := "Credentials were incorrect." }
    | .error (.requestFailed _) =>
      { s with loginError := "Unable to sign in. Please try again." }

/-- `handleSignOut` (lines 144-158): the best-effort revoke call's outcome
is swallowed either way (logged only), then the token is cleared, the
session dropped to unauthenticated and the list reloaded as visitor. -/
def handleSignOut (s : ClientState) (revokeResp : HttpResponse Unit)
    (loadResp : HttpResponse LoadResult) : ClientState :=
  let _ := fetchJSON revokeResp
  let s := saveToken s none
  let s := setAuthState s false
  loadPosts s loadResp

/-- `handleCreatePost` (lines 218-259).  Returns the new state paired with
whether the network call was made.  `outcome` is the result of `fetchJSON`
on the create response; per the request contract (spec section 6) a
successful create returns the created post record, so the outcome carries
a `Post` (the null body of a 204 does not arise on this endpoint and is
not modelled). -/
def handleCreatePost (s : ClientState) (title0 body0 : String)
    (outcome : Except FetchErr Post) : ClientState × Bool :=
  if s.authed = false then
    ({ s with editorMessage := "Sign in to publish posts." }, false)
  else
    let s := { s with publishDisabled := true }
    let title := jsTrim title0
    let body := jsTrim body0
    if title = "" ∨ body = "" then
      ({ s with editorMessage := "Add both a title and content before publishing.",
                publishDisabled := false }, false)
    else
      match outcome with
      | .ok newPost =>
        ({ s with posts := newPost :: s.posts,
                  editorMessage := "Post published.",
                  publishDisabled := false }, true)
      | .error .unauthorized =>
        let s := setAuthState (saveToken s none) false
        ({ s with loginError := "Session expired. Please sign in again.",
                  publishDisabled := false }, true)
      | .error (.requestFailed _) =>
        ({ s with editorMessage := "Unable to publish. Please try again.",
                  publishDisabled := false }, true)

/-- `handleDeletePost` (lines 261-297): requires an authenticated session,
a truthy `data-id` (modelled: non-empty) and user confirmation; on success
removes the matching record from the in-memory list; a 401 expires the
session; any other failure shows the delete-failure message.  (The
per-post button's disabled flag is local to a DOM node that is rebuilt on
every render and is not modelled.) -/
def handleDeletePost (s : ClientState) (id : String) (confirmed : Bool)
    (resp : HttpResponse Unit) : ClientState :=
  if s.authed = false then
    { s with editorMessage := "Sign in to manage posts." }
  else if id = "" then s
  else if confirmed = false then s
  else
    match fetchJSON resp with
    | .ok _ =>
      { s with posts := s.posts.filter (fun post => post.id ≠ id),
               editorMessage := "Post deleted." }
    | .error .unauthorized =>
      let s := setAuthState (saveToken s none) false
      { s with loginError := "Session expired. Please sign in again." }
    | .error (.requestFailed _) =>
      { s with editorMessage := "Unable to delete post." }

/-- `handleExport` (lines 308-328) restricted to modelled state: the JSON
serialization and the file download touch no client state beyond the
editor message. -/
def handleExport (s : ClientState) : ClientState :=
  if s.posts.isEmpty then
    { s with editorMessage := "There are no posts to export." }
  else
    { s with editorMessage := "Export downloaded." }

/-- First rejection of the joined `Promise.all` (line 354), taking the
request order as the completion order. -/
def firstErr {α : Type} : List (Except FetchErr α) → Option FetchErr
  | [] => none
  | .ok _ :: rest => firstErr rest
  | .error e :: _ => some e

/-- `handleClear` (lines 330-370): requires a non-empty list, an
authenticated session and confirmation; issues one delete call per post
and joins on all of them; the in-memory list is cleared only when every
call succeeded, otherwise the caught error is handled like a
single-delete failure.  `resps` are the responses to the per-post delete
calls, in request order. -/
def handleClear (s : ClientState) (confirmed : Bool)
    (resps : List (HttpResponse Unit)) : ClientState :=
  if s.posts.isEmpty then { s with editorMessage := "Nothing to clear." }
  else if s.authed = false then { s with editorMessage := "Sign in to remove posts." }
  else if confirmed = false then s
  else
    let s := { s with clearDisabled := true }
    match firstErr (resps.map fetchJSON) with
    | none =>
      { s with posts := [], editorMessage := "All posts removed.",
               clearDisabled := false }
    | some .unauthorized =>
      let s := setAuthState (saveToken s none) false
      { s with loginError := "Session expired. Please sign in again.",
               clearDisabled := false }
    | some (.requestFailed _) =>
      { s with editorMessage := "Unable to clear posts.",
               clearDisabled := false }

/-- One post's HTML fragment, from the template literal in `renderPosts`
(lines 187-206), whitespace included.  `localeTime` stands for the ambient
`x => new Date(x).toLocaleString()` (locale- and timezone-dependent). -/
def renderPost (localeTime : String → String) (authed : Bool) (post : Post) :
    String :=
  let time := localeTime post.createdAt
  let escapedTitle := escapeHtml post.title
  let escapedBody := replaceAllChar '\n' "<br/>" (escapeHtml post.body)
  let deleteButton :=
    if authed then
      "<button class=\"delete-post danger\" data-id=\"" ++ post.id ++
        "\">Delete</button>"
    else ""
  "\n        <article class=\"post\" data-id=\"" ++ post.id ++
    "\">\n          <div class=\"post-header\">\n            <h3>" ++
    escapedTitle ++ "</h3>\n            " ++ deleteButton ++
    "\n          </div>\n          <time datetime=\"" ++ post.createdAt ++
    "\">" ++ time ++ "</time>\n          <p>" ++ escapedBody ++
    "</p>\n        </article>\n      "

/-- `renderPosts` (lines 180-216) as a pure fragment builder: the empty
list renders the fixed placeholder; otherwise the per-post fragments are
joined with the empty separator.  (Attaching the delete-button listeners
only wires up events.) -/
def renderPostsHtml (localeTime : String → String) (posts : List Post)
    (authed : Bool) : String :=
  if posts.isEmpty then
    "<div class=\"post empty\">No posts yet. Use the editor below to add one!</div>"
  else
    String.join (posts.map (renderPost localeTime authed))

/-- The startup sequence (lines 390-392) before the initial `loadPosts()`
call: `saveToken(loadToken())` then `setAuthState(Boolean(state.token))`,
starting from the literal initial `state` (lines 19-23) with the token
store holding `stored`. -/
def startup (stored : Option String) : ClientState :=
  let s : ClientState :=
    { store := stored, token := none, posts := [], authed := false,
      loginError := "", editorMessage := "", publishDisabled := false,
      clearDisabled := false }
  let s := saveToken s stored
  setAuthState s (truthy s.token)

/-- One user- or network-initiated workflow invocation, carrying the form
inputs, confirmations and responses it observes. -/
inductive Event where
  | login (username password : String) (resp : HttpResponse LoginResult)
      (loadResp : HttpResponse LoadResult)
  | signOut (revokeResp : HttpResponse Unit) (loadResp : HttpResponse LoadResult)
  | load (resp : HttpResponse LoadResult)
  | publish (title body : String) (outcome : Except FetchErr Post)
  | deleteOne (id : String) (confirmed : Bool) (resp : HttpResponse Unit)
  | clearAll (confirmed : Bool) (resps : List (HttpResponse Unit))
  | exportPosts

/-- The client as a state machine: each event runs its workflow. -/
def step (s : ClientState) : Event → ClientState
  | .login username password resp loadResp =>
    handleLogin s username password resp loadResp
  | .signOut revokeResp loadResp => handleSignOut s revokeResp loadResp
  | .load resp => loadPosts s resp
  | .publish title body outcome => (handleCreatePost s title body outcome).1
  | .deleteOne id confirmed resp => handleDeletePost s id confirmed resp
  | .clearAll confirmed resps => handleClear s confirmed resps
  | .exportPosts => handleExport s

/-- The session invariant of spec section 3: `authed` is true only while a
non-empty token exists, both in session state and in the token store. -/
def sessionInv (s : ClientState) : Bool :=
  !s.authed || (truthy s.token && s.store == s.token)

/-- A successful login whose response carries an empty or absent token
field — the one workflow outcome that breaks the session invariant. -/
def badLogin : Event → Bool
  | .login username password resp _ =>
    jsTrim username ≠ "" && password ≠ "" &&
      (match fetchJSON resp with
       | .ok (some result) => !truthy result.token
       | _ => false)
  | _ => false

/-- A client trace: the startup state followed by a sequence of workflow
events. -/
def runEvents (stored : Option String) (events : List Event) : ClientState :=
  List.foldl step (startup stored) events

theorem replaceChar_append (c : Char) (r xs ys : List Char) :
    replaceChar c r (xs ++ ys) = replaceChar c r xs ++ replaceChar c r ys := by
  induction xs with
  | nil => rfl
  | cons x xs ih => simp [replaceChar, ih, List.append_assoc]

theorem escapeHtmlList_cons (c : Char) (cs : List Char) :
    escapeHtmlList (c :: cs) = escChar c ++ escapeHtmlList cs := by
  by_cases h1 : c = '&'
  · subst h1; simp [escapeHtmlList, escChar, replaceChar, replaceChar_append]
  · by_cases h2 : c = '<'
    · subst h2; simp [escapeHtmlList, escChar, replaceChar, replaceChar_append]
    · by_cases h3 : c = '>'
      · subst h3; simp [escapeHtmlList, escChar, replaceChar, replaceChar_append]
      · by_cases h4 : c = '"'
        · subst h4; simp [escapeHtmlList, escChar, replaceChar, replaceChar_append]
        · by_cases h5 : c = '\''
          · subst h5; simp [escapeHtmlList, escChar, replaceChar, replaceChar_append]
          · simp [escapeHtmlList, escChar, replaceChar, replaceChar_append,
              h1, h2, h3, h4, h5]

theorem escapeHtml_data (s : String) :
    (escapeHtml s).data = escapeHtmlList s.data := rfl

theorem noStray_escChar (c : Char) (rest : List Char) :
    noStray (escChar c ++ rest) = noStray rest := by
  by_cases h1 : c = '&'
  · subst h1
    show noStray ('&' :: 'a' :: 'm' :: 'p' :: ';' :: rest) = noStray rest
    simp [noStray]
  · by_cases h2 : c = '<'
    · subst h2
      show noStray ('&' :: 'l' :: 't' :: ';' :: rest) = noStray rest
      simp [noStray]
    · by_cases h3 : c = '>'
      · subst h3
        show noStray ('&' :: 'g' :: 't' :: ';' :: rest) = noStray rest
        simp [noStray]
      · by_cases h4 : c = '"'
        · subst h4
          show noStray ('&' :: 'q' :: 'u' :: 'o' :: 't' :: ';' :: rest) = noStray rest
          simp [noStray]
        · by_cases h5 : c = '\''
          · subst h5
            show noStray ('&' :: '#' :: '0' :: '3' :: '9' :: ';' :: rest) = noStray rest
            simp [noStray]
          · have he : escChar c = [c] := by simp [escChar, h1, h2, h3, h4, h5]
            rw [he, List.singleton_append]
            simp [noStray, h1, h2, h3, h4, h5]

theorem decodeEntities_escChar (c : Char) (rest : List Char) :
    decodeEntities (escChar c ++ rest) = c :: decodeEntities rest := by
  by_cases h1 : c = '&'
  · subst h1
    show decodeEntities ('&' :: 'a' :: 'm' :: 'p' :: ';' :: rest) = '&' :: decodeEntities rest
    simp [decodeEntities]
  · by_cases h2 : c = '<'
    · subst h2
      show decodeEntities ('&' :: 'l' :: 't' :: ';' :: rest) = '<' :: decodeEntities rest
      simp [decodeEntities]
    · by_cases h3 : c = '>'
      · subst h3
        show decodeEntities ('&' :: 'g' :: 't' :: ';' :: rest) = '>' :: decodeEntities rest
        simp [decodeEntities]
      · by_cases h4 : c = '"'
        · subst h4
          show decodeEntities ('&' :: 'q' :: 'u' :: 'o' :: 't' :: ';' :: rest) =
            '"' :: decodeEntities rest
          simp [decodeEntities]
        · by_cases h5 : c = '\''
          · subst h5
            show decodeEntities ('&' :: '#' :: '0' :: '3' :: '9' :: ';' :: rest) =
              '\'' :: decodeEntities rest
            simp [decodeEntities]
          · have he : escChar c = [c] := by simp [escChar, h1, h2, h3, h4, h5]
            rw [he, List.singleton_append]
            simp [decodeEntities, h1]

theorem noStray_escapeHtmlList (cs : List Char) :
    noStray (escapeHtmlList cs) = true := by
  induction cs with
  | nil => simp [escapeHtmlList, replaceChar, noStray]
  | cons c cs ih => rw [escapeHtmlList_cons, noStray_escChar]; exact ih

theorem decodeEntities_escapeHtmlList (cs : List Char) :
    decodeEntities (escapeHtmlList cs) = cs := by
  induction cs with
  | nil => simp [escapeHtmlList, replaceChar, decodeEntities]
  | cons c cs ih => rw [escapeHtmlList_cons, decodeEntities_escChar, ih]

theorem fetchJSON_401 {α : Type} (r : HttpResponse α) (h : r.status = 401) :
    fetchJSON r = .error .unauthorized := by
  simp [fetchJSON, h]

theorem fetchJSON_ok {α : Type} (r : HttpResponse α)
    (hok : 200 ≤ r.status ∧ r.status ≤ 299) (h204 : r.status ≠ 204) :
    fetchJSON r = .ok (some r.json) := by
  have h401 : r.status ≠ 401 := by omega
  simp [fetchJSON, h401, h204, hok]

theorem exists_error_firstErr {α : Type} (l : List (Except FetchErr α))
    (h : ∃ x ∈ l, ∃ e, x = .error e) : ∃ e, firstErr l = some e := by
  induction l with
  | nil => simp at h
  | cons x xs ih =>
    obtain ⟨y, hy, e, he⟩ := h
    cases x with
    | ok v =>
      rcases List.mem_cons.mp hy with h1 | h1
      · subst h1; simp at he
      · simpa [firstErr] using ih ⟨y, h1, e, he⟩
    | error e0 => exact ⟨e0, rfl⟩

/-- **Claim C2.** For every input string, the output of `escapeHtml`
contains no literal occurrence of `&ampersand < > " '` except as part of the
entity forms `&amp; &lt; &gt; &quot; &#039;`, and decoding those entities
in the escaped output yields exactly the original string. -/
theorem escapeHtml_noStray_and_roundtrip (s : String) :
    noStray (escapeHtml s).data = true ∧
      decodeEntities (escapeHtml s).data = s.data := by
  rw [escapeHtml_data]
  exact ⟨noStray_escapeHtmlList s.data, decodeEntities_escapeHtmlList s.data⟩

/-- **Claim C5.** A response whose status is neither 401 nor a success
status (`response.ok`, 200-299) makes `fetchJSON` fail with
`RequestFailed` whose message is the body text if non-empty, otherwise
the status line text if non-empty, otherwise `"Request failed."`. -/
theorem fetchJSON_requestFailed (r : HttpResponse Unit)
    (h401 : r.status ≠ 401) (hok : ¬(200 ≤ r.status ∧ r.status ≤ 299)) :
    fetchJSON r = .error (.requestFailed
      (if r.bodyText ≠ "" then r.bodyText
       else if r.statusText ≠ "" then r.statusText
       else "Request failed.")) := by
  simp [fetchJSON, h401, hok]

/-- Witness for C5: a 500 response with empty body falls back to the
status line text. -/
theorem fetchJSON_requestFailed_witness :
    ¬((500 : Nat) = 401) ∧ ¬(200 ≤ (500 : Nat) ∧ (500 : Nat) ≤ 299) ∧
      fetchJSON { status := 500, statusText := "Internal Server Error",
                  bodyText := "", json := () } =
        .error (.requestFailed "Internal Server Error") := by
  refine ⟨by decide, by decide, ?_⟩
  have h := fetchJSON_requestFailed
    { status := 500, statusText := "Internal Server Error", bodyText := "", json := () }
    (by decide) (by decide)
  simpa using h

/-- **Claim C10.** A successful (2xx, non-204) load response replaces the
in-memory post list with the response's `posts` field exactly when that
field is an array, and with the empty list when it is missing or not an
array. -/
theorem loadPosts_success_posts (s : ClientState)
    (resp : HttpResponse LoadResult)
    (hok : 200 ≤ resp.status ∧ resp.status ≤ 299) (h204 : resp.status ≠ 204) :
    (loadPosts s resp).posts =
      (match resp.json with
       | .postsArr posts => posts
       | _ => []) := by
  simp [loadPosts, fetchJSON_ok resp hok h204]

/-- Witness for C10: a 200 response with a one-post array replaces the
list with it; a 200 response without a posts array empties the list. -/
theorem loadPosts_success_posts_witness :
    ((200 ≤ (200 : Nat) ∧ (200 : Nat) ≤ 299) ∧ ¬((200 : Nat) = 204)) ∧
    (loadPosts
      { store := none, token := none, posts := [], authed := false,
        loginError := "", editorMessage := "", publishDisabled := false,
        clearDisabled := false }
      { status := 200, statusText := "OK", bodyText := "",
        json := .postsArr [{ id := "1", title := "T", body := "B",
                             createdAt := "2024-01-01T00:00:00Z" }] }).posts =
      [{ id := "1", title := "T", body := "B",
         createdAt := "2024-01-01T00:00:00Z" }] ∧
    (loadPosts
      { store := none, token := none,
        posts := [{ id := "1", title := "T", body := "B",
                    createdAt := "2024-01-01T00:00:00Z" }],
        authed := false, loginError := "", editorMessage := "",
        publishDisabled := false, clearDisabled := false }
      { status := 200, statusText := "OK", bodyText := "",
        json := .noPosts }).posts = [] := by
  refine ⟨by decide, ?_, ?_⟩
  · have h := loadPosts_success_posts
      { store := none, token := none, posts := [], authed := false,
        loginError := "", editorMessage := "", publishDisabled := false,
        clearDisabled := false }
      { status := 200, statusText := "OK", bodyText := "",
        json := .postsArr [{ id := "1", title := "T", body := "B",
                             createdAt := "2024-01-01T00:00:00Z" }] }
      (by decide) (by decide)
    simpa using h
  · have h := loadPosts_success_posts
      { store := none, token := none,
        posts := [{ id := "1", title := "T", body := "B",
                    createdAt := "2024-01-01T00:00:00Z" }],
        authed := false, loginError := "", editorMessage := "",
        publishDisabled := false, clearDisabled := false }
      { status := 200, statusText := "OK", bodyText := "",
        json := .noPosts }
      (by decide) (by decide)
    simpa using h

/-- **Claim C6.** A successful publish prepends the post record returned
by the server to the front of the in-memory sequence, leaving the rest of
the sequence unchanged and in its prior order (newest first). -/
theorem handleCreatePost_success_prepends (s : ClientState)
    (title body : String) (p : Post) (hA : s.authed = true)
    (ht : jsTrim title ≠ "") (hb : jsTrim body ≠ "") :
    (handleCreatePost s title body (.ok p)).1.posts = p :: s.posts := by
  simp [handleCreatePost, hA, ht, hb]

/-- Witness for C6: publishing over a one-post list prepends the new
post. -/
theorem handleCreatePost_success_prepends_witness :
    jsTrim "New" ≠ "" ∧ jsTrim "Content" ≠ "" ∧
    (handleCreatePost
      { store := some "tok", token := some "tok",
        posts := [{ id := "1", title := "Old", body := "O",
                    createdAt := "2024-01-01T00:00:00Z" }],
        authed := true, loginError := "", editorMessage := "",
        publishDisabled := false, clearDisabled := false }
      "New" "Content"
      (.ok { id := "2", title := "New", body := "Content",
             createdAt := "2024-01-02T00:00:00Z" })).1.posts =
      [{ id := "2", title := "New", body := "Content",
         createdAt := "2024-01-02T00:00:00Z" },
       { id := "1", title := "Old", body := "O",
         createdAt := "2024-01-01T00:00:00Z" }] := by
  refine ⟨by decide, by decide, ?_⟩
  exact handleCreatePost_success_prepends _ "New" "Content" _ rfl
    (by decide) (by decide)

/-- **Claim C7.** Publishing with an empty title or an empty body (after
trimming whitespace) performs no network call and leaves the in-memory
post sequence exactly as it was. -/
theorem handleCreatePost_empty_fields (s : ClientState)
    (title body : String) (outcome : Except FetchErr Post)
    (h : jsTrim title = "" ∨ jsTrim body = "") :
    (handleCreatePost s title body outcome).2 = false ∧
      (handleCreatePost s title body outcome).1.posts = s.posts := by
  cases hA : s.authed with
  | false => simp [handleCreatePost, hA]
  | true => simp [handleCreatePost, hA, h]

/-- Witness for C7: a whitespace-only title blocks the call and keeps the
list. -/
theorem handleCreatePost_empty_fields_witness :
    (jsTrim "   " = "" ∨ jsTrim "Content" = "") ∧
    (handleCreatePost
      { store := some "tok", token := some "tok",
        posts := [{ id := "1", title := "Old", body := "O",
                    createdAt := "2024-01-01T00:00:00Z" }],
        authed := true, loginError := "", editorMessage := "",
        publishDisabled := false, clearDisabled := false }
      "   " "Content" (.error .unauthorized)).2 = false ∧
    (handleCreatePost
      { store := some "tok", token := some "tok",
        posts := [{ id := "1", title := "Old", body := "O",
                    createdAt := "2024-01-01T00:00:00Z" }],
        authed := true, loginError := "", editorMessage := "",
        publishDisabled := false, clearDisabled := false }
      "   " "Content" (.error .unauthorized)).1.posts =
      [{ id := "1", title := "Old", body := "O",
         createdAt := "2024-01-01T00:00:00Z" }] := by
  have h := handleCreatePost_empty_fields
    { store := some "tok", token := some "tok",
      posts := [{ id := "1", title := "Old", body := "O",
                  createdAt := "2024-01-01T00:00:00Z" }],
      authed := true, loginError := "", editorMessage := "",
      publishDisabled := false, clearDisabled := false }
    "   " "Content" (.error .unauthorized) (Or.inl (by decide))
  exact ⟨Or.inl (by decide), h.1, h.2⟩

/-- **Claim C1.** In the load-posts, publish and delete-one workflows, a
request that fails with `Unauthorized` (HTTP 401) leaves the token store
empty, the session unauthenticated (`authed` false, token cleared) and
the session-expired message surfaced — and the three workflows produce
identical states.  (For the publish workflow the 401 is given as the
`Unauthorized` outcome of `fetchJSON`, which `fetchJSON_401` equates with
a 401 status.) -/
theorem unauthorized_clears_session (s : ClientState)
    (loadResp : HttpResponse LoadResult) (delResp : HttpResponse Unit)
    (title body id : String)
    (hL : loadResp.status = 401) (hD : delResp.status = 401)
    (hA : s.authed = true) (ht : jsTrim title ≠ "") (hb : jsTrim body ≠ "")
    (hid : id ≠ "") :
    (loadPosts s loadResp).store = none ∧
    (loadPosts s loadResp).token = none ∧
    (loadPosts s loadResp).authed = false ∧
    (loadPosts s loadResp).loginError = "Session expired. Please sign in again." ∧
    (handleCreatePost s title body (.error .unauthorized)).1 =
      loadPosts s loadResp ∧
    handleDeletePost s id true delResp = loadPosts s loadResp := by
  have hfl := fetchJSON_401 loadResp hL
  have hfd := fetchJSON_401 delResp hD
  refine ⟨?_, ?_, ?_, ?_, ?_, ?_⟩ <;>
    simp [loadPosts, handleCreatePost, handleDeletePost, hfl, hfd, hA, ht, hb,
      hid, setAuthState, saveToken, truthy]

/-- Witness for C1: a concrete authenticated state and 401 responses. -/
theorem unauthorized_clears_session_witness :
    ((401 : Nat) = 401 ∧ jsTrim "T" ≠ "" ∧ jsTrim "B" ≠ "" ∧ "1" ≠ "") ∧
    (loadPosts
      { store := some "tok", token := some "tok",
        posts := [{ id := "1", title := "T", body := "B",
                    createdAt := "2024-01-01T00:00:00Z" }],
        authed := true, loginError := "", editorMessage := "",
        publishDisabled := false, clearDisabled := false }
      { status := 401, statusText := "Unauthorized", bodyText := "",
        json := .noPosts }).store = none := by
  refine ⟨⟨rfl, by decide, by decide, by decide⟩, ?_⟩
  exact (unauthorized_clears_session
    { store := some "tok", token := some "tok",
      posts := [{ id := "1", title := "T", body := "B",
                  createdAt := "2024-01-01T00:00:00Z" }],
      authed := true, loginError := "", editorMessage := "",
      publishDisabled := false, clearDisabled := false }
    { status := 401, statusText := "Unauthorized", bodyText := "",
      json := .noPosts }
    { status := 401, statusText := "Unauthorized", bodyText := "", json := () }
    "T" "B" "1" rfl rfl rfl (by decide) (by decide) (by decide)).1

/-- **Claim C3.** If any of the per-post delete calls of the delete-all
workflow fails, the in-memory sequence afterwards still contains all the
posts it held before (no partial removal) and a failure message is shown
(the session-expired line for a 401, the clear-failure message
otherwise). -/
theorem handleClear_failure_keeps_posts (s : ClientState)
    (resps : List (HttpResponse Unit))
    (hA : s.authed = true) (hne : s.posts ≠ [])
    (_hlen : resps.length = s.posts.length)
    (hfail : ∃ r ∈ resps, ∃ e, fetchJSON r = .error e) :
    (handleClear s true resps).posts = s.posts ∧
      ((handleClear s true resps).loginError =
          "Session expired. Please sign in again." ∨
        (handleClear s true resps).editorMessage = "Unable to clear posts.") := by
  obtain ⟨r, hr, e, he⟩ := hfail
  obtain ⟨e', he'⟩ := exists_error_firstErr (resps.map fetchJSON)
    ⟨fetchJSON r, List.mem_map_of_mem fetchJSON hr, e, he⟩
  have hempty : s.posts.isEmpty = false := by
    cases hp : s.posts with
    | nil => exact absurd hp hne
    | cons a l => rfl
  cases e' with
  | unauthorized =>
    constructor <;>
      simp [handleClear, hempty, hA, he', setAuthState, saveToken, truthy]
  | requestFailed m =>
    constructor <;> simp [handleClear, hempty, hA, he']

/-- Witness for C3: three posts, the second delete call fails with a 500;
afterwards all three posts are still in memory. -/
theorem handleClear_failure_keeps_posts_witness :
    (3 : Nat) = 3 ∧
    (handleClear
      { store := some "tok", token := some "tok",
        posts := [{ id := "1", title := "A", body := "a",
                    createdAt := "2024-01-01T00:00:00Z" },
                  { id := "2", title := "B", body := "b",
                    createdAt := "2024-01-02T00:00:00Z" },
                  { id := "3", title := "C", body := "c",
                    createdAt := "2024-01-03T00:00:00Z" }],
        authed := true, loginError := "", editorMessage := "",
        publishDisabled := false, clearDisabled := false }
      true
      [{ status := 204, statusText := "No Content", bodyText := "", json := () },
       { status := 500, statusText := "Internal Server Error", bodyText := "",
         json := () },
       { status := 204, statusText := "No Content", bodyText := "", json := () }]).posts =
      [{ id := "1", title := "A", body := "a",
         createdAt := "2024-01-01T00:00:00Z" },
       { id := "2", title := "B", body := "b",
         createdAt := "2024-01-02T00:00:00Z" },
       { id := "3", title := "C", body := "c",
         createdAt := "2024-01-03T00:00:00Z" }] := by
  refine ⟨rfl, ?_⟩
  exact (handleClear_failure_keeps_posts
    { store := some "tok", token := some "tok",
      posts := [{ id := "1", title := "A", body := "a",
                  createdAt := "2024-01-01T00:00:00Z" },
                { id := "2", title := "B", body := "b",
                  createdAt := "2024-01-02T00:00:00Z" },
                { id := "3", title := "C", body := "c",
                  createdAt := "2024-01-03T00:00:00Z" }],
      authed := true, loginError := "", editorMessage := "",
      publishDisabled := false, clearDisabled := false }
    [{ status := 204, statusText := "No Content", bodyText := "", json := () },
     { status := 500, statusText := "Internal Server Error", bodyText := "",
       json := () },
     { status := 204, statusText := "No Content", bodyText := "", json := () }]
    rfl (by decide) (by decide)
    ⟨{ status := 500, statusText := "Internal Server Error", bodyText := "",
       json := () },
     by decide,
     .requestFailed "Internal Server Error", rfl⟩).1

theorem sessionInv_of_not_authed (s : ClientState) (h : s.authed = false) :
    sessionInv s = true := by
  simp [sessionInv, h]

theorem sessionInv_loadPosts (s : ClientState) (resp : HttpResponse LoadResult)
    (h : sessionInv s = true) : sessionInv (loadPosts s resp) = true := by
  unfold loadPosts
  cases hf : fetchJSON resp with
  | ok v =>
    cases v with
    | some result => simpa [sessionInv] using h
    | none => simpa [sessionInv] using h
  | error e =>
    cases e with
    | unauthorized => simp [sessionInv, setAuthState, saveToken]
    | requestFailed m => simpa [sessionInv] using h

theorem sessionInv_startup (stored : Option String) :
    sessionInv (startup stored) = true := by
  cases h : truthy stored <;>
    simp [startup, saveToken, setAuthState, sessionInv, h]

theorem sessionInv_handleLogin (s : ClientState) (username password : String)
    (resp : HttpResponse LoginResult) (loadResp : HttpResponse LoadResult)
    (h : sessionInv s = true)
    (hbad : badLogin (.login username password resp loadResp) = false) :
    sessionInv (handleLogin s username password resp loadResp) = true := by
  unfold handleLogin
  by_cases hu : jsTrim username = "" ∨ password = ""
  · simpa [hu, sessionInv] using h
  · push_neg at hu
    cases hf : fetchJSON resp with
    | ok v =>
      cases v with
      | some result =>
        have htok : truthy result.token = true := by
          simp [badLogin, hf, hu.1, hu.2] at hbad
          cases ht : truthy result.token with
          | false => rw [ht] at hbad; exact absurd hbad (by simp)
          | true => rfl
        have h1 : sessionInv
            (setAuthState (saveToken { s with loginError := "" } result.token)
              true) = true := by
          simp [sessionInv, setAuthState, saveToken, htok]
        have h2 := sessionInv_loadPosts _ loadResp h1
        simpa [hu.1, hu.2, hf, sessionInv] using h2
      | none => simpa [hu.1, hu.2, hf, sessionInv] using h
    | error e =>
      cases e with
      | unauthorized => simpa [hu.1, hu.2, hf, sessionInv] using h
      | requestFailed m => simpa [hu.1, hu.2, hf, sessionInv] using h

theorem sessionInv_handleSignOut (s : ClientState)
    (revokeResp : HttpResponse Unit) (loadResp : HttpResponse LoadResult) :
    sessionInv (handleSignOut s revokeResp loadResp) = true := by
  unfold handleSignOut
  apply sessionInv_loadPosts
  simp [sessionInv, setAuthState, saveToken]

theorem sessionInv_handleCreatePost (s : ClientState) (title body : String)
    (outcome : Except FetchErr Post) (h : sessionInv s = true) :
    sessionInv (handleCreatePost s title body outcome).1 = true := by
  unfold handleCreatePost
  cases hA : s.authed with
  | false => simp [sessionInv, hA]
  | true =>
    by_cases ht : jsTrim title = "" ∨ jsTrim body = ""
    · simpa [ht, hA, sessionInv] using h
    · cases outcome with
      | ok newPost => simpa [ht, hA, sessionInv] using h
      | error e =>
        cases e with
        | unauthorized => simp [ht, sessionInv, setAuthState, saveToken]
        | requestFailed m => simpa [ht, hA, sessionInv] using h

theorem sessionInv_handleDeletePost (s : ClientState) (id : String)
    (confirmed : Bool) (resp : HttpResponse Unit) (h : sessionInv s = true) :
    sessionInv (handleDeletePost s id confirmed resp) = true := by
  unfold handleDeletePost
  cases hA : s.authed with
  | false => simp [sessionInv, hA]
  | true =>
    by_cases hid : id = ""
    · simpa [hid, sessionInv] using h
    · cases confirmed with
      | false => simpa [hid, sessionInv] using h
      | true =>
        cases hf : fetchJSON resp with
        | ok v => simpa [hid, hf, hA, sessionInv] using h
        | error e =>
          cases e with
          | unauthorized => simp [hid, hf, sessionInv, setAuthState, saveToken]
          | requestFailed m => simpa [hid, hf, hA, sessionInv] using h

theorem sessionInv_handleClear (s : ClientState) (confirmed : Bool)
    (resps : List (HttpResponse Unit)) (h : sessionInv s = true) :
    sessionInv (handleClear s confirmed resps) = true := by
  unfold handleClear
  by_cases hp : s.posts.isEmpty = true
  · simpa [hp, sessionInv] using h
  · have hp' : s.posts.isEmpty = false := by
      cases hq : s.posts.isEmpty with
      | false => rfl
      | true => exact absurd hq hp
    cases hA : s.authed with
    | false => simp [hp', hA, sessionInv]
    | true =>
      cases confirmed with
      | false => simpa [hp', hA, sessionInv] using h
      | true =>
        cases hf : firstErr (resps.map fetchJSON) with
        | none => simpa [hp', hA, hf, sessionInv] using h
        | some e =>
          cases e with
          | unauthorized =>
            simp [hp', hA, hf, sessionInv, setAuthState, saveToken]
          | requestFailed m => simpa [hp', hA, hf, sessionInv] using h

theorem sessionInv_handleExport (s : ClientState) (h : sessionInv s = true) :
    sessionInv (handleExport s) = true := by
  unfold handleExport
  by_cases hp : s.posts.isEmpty = true
  · simpa [hp, sessionInv] using h
  · simpa [hp, sessionInv] using h

/-- **Claim C4 (amended).** The session invariant — `authed` is true only
while a non-empty token exists, identically in session state and the
token store — holds at startup and is preserved by every workflow step
EXCEPT a successful login whose response carries an empty or absent token
field (see the counterexample); and the login workflow's handling of a
401 leaves token, store and authed unchanged (showing the
incorrect-credentials message) rather than forcing them cleared — which
preserves the cleared state in any session where the login form is
reachable.  The 401 handlers of the non-login workflows do force the
cleared state (claim C1). -/
theorem session_invariant_amended :
    (∀ stored, sessionInv (startup stored) = true) ∧
    (∀ (s : ClientState) (e : Event), sessionInv s = true →
      badLogin e = false → sessionInv (step s e) = true) ∧
    (∀ (s : ClientState) (username password : String)
      (resp : HttpResponse LoginResult) (loadResp : HttpResponse LoadResult),
      resp.status = 401 →
        (handleLogin s username password resp loadResp).token = s.token ∧
        (handleLogin s username password resp loadResp).store = s.store ∧
        (handleLogin s username password resp loadResp).authed = s.authed) := by
  refine ⟨sessionInv_startup, ?_, ?_⟩
  · intro s e h hbad
    cases e with
    | login u p resp lr => exact sessionInv_handleLogin s u p resp lr h hbad
    | signOut r lr => exact sessionInv_handleSignOut s r lr
    | load resp => exact sessionInv_loadPosts s resp h
    | publish title body outcome =>
      exact sessionInv_handleCreatePost s title body outcome h
    | deleteOne id confirmed resp =>
      exact sessionInv_handleDeletePost s id confirmed resp h
    | clearAll confirmed resps =>
      exact sessionInv_handleClear s confirmed resps h
    | exportPosts => exact sessionInv_handleExport s h
  · intro s u p resp lr h401
    have hf := fetchJSON_401 resp h401
    unfold handleLogin
    by_cases hu : jsTrim u = "" ∨ p = ""
    · simp [hu]
    · simp [hu, hf]

/-- Witness for the amended C4: the invariant holds after startup with a
stored token followed by an export step, and a 401 login attempt against
a concrete signed-in state changes none of token, store, authed. -/
theorem session_invariant_amended_witness :
    sessionInv (step (startup (some "tok")) Event.exportPosts) = true ∧
    (handleLogin
      { store := some "tok", token := some "tok", posts := [], authed := true,
        loginError := "", editorMessage := "", publishDisabled := false,
        clearDisabled := false }
      "editor" "pw"
      { status := 401, statusText := "Unauthorized", bodyText := "",
        json := { token := none } }
      { status := 200, statusText := "OK", bodyText := "",
        json := .postsArr [] }).authed = true := by
  constructor
  · exact session_invariant_amended.2.1 (startup (some "tok"))
      Event.exportPosts (session_invariant_amended.1 (some "tok")) rfl
  · exact (session_invariant_amended.2.2
      { store := some "tok", token := some "tok", posts := [], authed := true,
        loginError := "", editorMessage := "", publishDisabled := false,
        clearDisabled := false }
      "editor" "pw"
      { status := 401, statusText := "Unauthorized", bodyText := "",
        json := { token := none } }
      { status := 200, statusText := "OK", bodyText := "",
        json := .postsArr [] } rfl).2.2

/-- **Counterexample to Claim C4 as stated.**  First conjunct: from the
startup state, one successful login whose 200 response carries
`{ token: "" }` reaches a state with `authed = true` while the session
token is empty and the token store is empty — the invariant "authed only
while a non-empty token exists" fails in a reachable state.  Second
conjunct: from a state reached by a normal login (token `"tok"`), a login
attempt answered with 401 leaves the session authenticated with its token
in place — the login workflow's 401 handling does not force the cleared
state. -/
theorem session_invariant_counterexample :
    (let s := runEvents none
      [Event.login "editor" "pw"
        { status := 200, statusText := "OK", bodyText := "",
          json := { token := some "" } }
        { status := 200, statusText := "OK", bodyText := "",
          json := .postsArr [] }]
     s.authed = true ∧ truthy s.token = false ∧ s.store = none) ∧
    (let s := runEvents none
      [Event.login "editor" "pw"
        { status := 200, statusText := "OK", bodyText := "",
          json := { token := some "tok" } }
        { status := 200, statusText := "OK", bodyText := "",
          json := .postsArr [] },
       Event.login "editor" "pw"
        { status := 401, statusText := "Unauthorized", bodyText := "",
          json := { token := none } }
        { status := 200, statusText := "OK", bodyText := "",
          json := .postsArr [] }]
     s.authed = true ∧ s.token = some "tok") := by
  constructor <;> decide

/-- **Claim C9.** The renderer escapes only the title and body of each
post; the `id` and `createdAt` fields are interpolated verbatim into
attribute positions of the fragment, so there is a post record — here one
whose id contains `"` and `<` — for which the rendered output contains
HTML-special characters from those fields outside entity form: the raw id
follows `data-id="` (and the raw `createdAt` follows `datetime="`), for
every locale rendering of the timestamp. -/
theorem renderPosts_raw_attributes (localeTime : String → String) :
    ∃ p : Post, '"' ∈ p.id.data ∧ '<' ∈ p.id.data ∧
      ∃ tail : String,
        renderPostsHtml localeTime [p] true =
          "\n        <article class=\"post\" data-id=\"" ++ p.id ++ tail := by
  refine ⟨{ id := "x\"<y", title := "T", body := "B",
            createdAt := "2024-01-01T00:00:00Z" }, by decide, by decide, ?_⟩
  refine ⟨"\">\n          <div class=\"post-header\">\n            <h3>" ++
    escapeHtml "T" ++ "</h3>\n            " ++
    ("<button class=\"delete-post danger\" data-id=\"" ++ "x\"<y" ++
      "\">Delete</button>") ++
    "\n          </div>\n          <time datetime=\"" ++
    "2024-01-01T00:00:00Z" ++ "\">" ++ localeTime "2024-01-01T00:00:00Z" ++
    "</time>\n          <p>" ++ replaceAllChar '\n' "<br/>" (escapeHtml "B") ++
    "</p>\n        </article>\n      ", ?_⟩
  have h1 : renderPostsHtml localeTime
      [{ id := "x\"<y", title := "T", body := "B",
         createdAt := "2024-01-01T00:00:00Z" }] true =
      renderPost localeTime true
        { id := "x\"<y", title := "T", body := "B",
          createdAt := "2024-01-01T00:00:00Z" } := by
    simp [renderPostsHtml, String.join]
  rw [h1]
  simp [renderPost, String.append_assoc]
  conv_rhs => rw [← String.append_assoc]
  congr 1

/-- **Claim C8.** For an empty post sequence the renderer's output is
exactly the fixed "no posts" placeholder fragment, for both values of
the authed flag and any locale rendering of timestamps. -/
theorem renderPostsHtml_empty (localeTime : String → String) (authed : Bool) :
    renderPostsHtml localeTime [] authed =
      "<div class=\"post empty\">No posts yet. Use the editor below to add one!</div>" :=
  rfl

end Blog
